import Mathlib

/-!
Shallow embedding of the flashtask-api backend (Express + Elasticsearch).

The embedded code is the two-index revision (indices `tasks` and
`organizations`) for the indexing handlers and the search handler, plus the
`detectDocType` classifier from the four-index revision.  JavaScript
truthiness on optional string fields (`undefined` and `""` are falsy) is
modelled explicitly; the Elasticsearch store is a function from document id
to an optional document; the query DSL is a small AST with the documented
bool-query semantics.
-/

namespace Flashtask

/-- JS truthiness of an optional string: `undefined`/absent and `""` are falsy. -/
def otruthy : Option String → Bool
  | none => false
  | some s => s ≠ ""

/-- JS `a || b` on optional strings: `b` when `a` is falsy. -/
def jsOr (a b : Option String) : Option String :=
  if otruthy a then a else b

/-- JS `a || d` with a string default: the value of `a` when truthy, else `d`. -/
def jsOrD (a : Option String) (d : String) : String :=
  if otruthy a then a.getD d else d

/-- JS `s.trim()`: strip leading and trailing whitespace. -/
def jsTrim (s : String) : String :=
  ⟨((s.data.dropWhile Char.isWhitespace).reverse.dropWhile Char.isWhitespace).reverse⟩

/-- JS substring containment `a.includes(b)`. -/
def strContains (a b : String) : Bool :=
  decide (b.data <:+: a.data)

/-- The event test `String(event).includes('delete')`. -/
def containsDelete (e : String) : Bool :=
  strContains e "delete"

/-! ## Elasticsearch query AST (the fragment the backend emits) -/

/-- Leaf query clauses the backend builds: `term` (exact, untokenized),
`match` (analyzed/fuzzy), and `multi_match` (query text, type, fields, operator). -/
inductive ESAtom where
  | term (field value : String)
  | matchQ (field value : String)
  | multiMatch (query typ : String) (fields : List String) (operator : String)
deriving DecidableEq, Repr

/-- Compound bool query: `must`, `should`, `filter` sub-clauses and an explicit
`minimum_should_match`. -/
inductive ESQuery where
  | atom (a : ESAtom)
  | boolQ (must should filter : List ESQuery) (msm : Nat)

-- Elasticsearch bool-query matching semantics relative to a primitive
-- evaluator `prim` deciding whether the document satisfies a leaf clause:
-- every `must` and every `filter` clause must match, and at least
-- `minimum_should_match` of the `should` clauses must match
-- (`evalAll` is the conjunction over a clause list, `evalCount` the number
-- of matching clauses).
mutual

def evalQ (prim : ESAtom → Bool) : ESQuery → Bool
  | .atom a => prim a
  | .boolQ must should filter msm =>
      evalAll prim must && evalAll prim filter && decide (msm ≤ evalCount prim should)

def evalAll (prim : ESAtom → Bool) : List ESQuery → Bool
  | [] => true
  | q :: qs => evalQ prim q && evalAll prim qs

def evalCount (prim : ESAtom → Bool) : List ESQuery → Nat
  | [] => 0
  | q :: qs => (if evalQ prim q then 1 else 0) + evalCount prim qs

end

/-! ## Mapping summary and the visibility-scoped query builder (search revision) -/

/-- The cache `mappingSummaryCache[idx][field]`: whether the field has a keyword-exact
sub-field in that index; an absent index or field reads as `false`. -/
def MappingSummary := String → String → Bool

/-- The helper `termOrMatch(fieldBase, idx, fallbackField)` of the search handler:
exact `.keyword` term clause when the summary reports a keyword sub-field,
else an analyzed `match` clause. -/
def termOrMatch (m : MappingSummary) (userEmail : String)
    (fieldBase idx fallbackField : String) : ESQuery :=
  if m idx fieldBase then .atom (.term (fallbackField ++ ".keyword") userEmail)
  else .atom (.matchQ fallbackField userEmail)

/-- The weighted `fieldsToSearch` list of the search handler. -/
def fieldsToSearch : List String :=
  ["title^3", "description^2", "category", "assignee", "invites",
   "name^3", "slug", "members.name", "members.email", "teams.name", "email"]

/-- The tasks branch of `userFilters`: document in the `tasks` index and
`userEmail` equals the caller. -/
def taskVisBranch (m : MappingSummary) (userEmail : String) : ESQuery :=
  .boolQ [.atom (.term "_index" "tasks"),
          termOrMatch m userEmail "userEmail" "tasks" "userEmail"] [] [] 0

/-- The organizations branch of `userFilters`: document in the
`organizations` index and some embedded member email equals the caller. -/
def orgVisBranch (m : MappingSummary) (userEmail : String) : ESQuery :=
  .boolQ [.atom (.term "_index" "organizations"),
          termOrMatch m userEmail "members.email" "organizations" "members.email"] [] [] 0

/-- The filter `userFilters`: disjunction (`should`, `minimum_should_match: 1`) of the
tasks branch and the organizations branch. -/
def userFilters (m : MappingSummary) (userEmail : String) : ESQuery :=
  .boolQ [] [taskVisBranch m userEmail, orgVisBranch m userEmail] [] 1

/-- The query body the search handler sends: the prefix-tolerant
`multi_match` in `must`, `userFilters` in `filter`. -/
def searchQueryBody (query userEmail : String) (m : MappingSummary) : ESQuery :=
  .boolQ [.atom (.multiMatch query "bool_prefix" fieldsToSearch "or")]
    [] [userFilters m userEmail] 0

/-- Outcome of the search handler: 400 (missing userEmail), empty results
without touching the store, or a store query with the built body and size. -/
inductive SearchOutcome where
  | badRequest
  | emptyResults
  | executed (size : Nat) (esq : ESQuery)

/-- Size clamp `Math.min(Number(limit) || 10, 50)` with `limit` defaulting to 10. -/
def clampSize (limit : Option Nat) : Nat :=
  min (match limit with | some n => if n == 0 then 10 else n | none => 10) 50

/-- The search handler's control flow up to the store call: reject a falsy
`userEmail`, short-circuit a falsy or short (trimmed length < 2) query, else
query the store with the built body. -/
def searchHandler (query userEmail : Option String) (limit : Option Nat)
    (m : MappingSummary) : SearchOutcome :=
  if !(otruthy userEmail) then .badRequest
  else if !(otruthy query) || decide ((jsTrim (query.getD "")).length < 2) then .emptyResults
  else .executed (clampSize limit) (searchQueryBody (query.getD "") (userEmail.getD "") m)

/-! ## Documents, payloads and the indexing handlers -/

/-- An embedded member object: `$id`, `name`, `email`, `role`, any of which
may be absent on a raw payload. -/
structure OrgMember where
  mid : Option String
  mname : Option String
  email : Option String
  role : Option String
deriving DecidableEq, Repr

/-- An element of a `members` array: either a plain identifier string or a
nested member object (mirrors the JS distinction `typeof m === 'string'` /
`'object'`). -/
inductive MemberVal where
  | str (s : String)
  | objm (m : OrgMember)
deriving DecidableEq, Repr

/-- Selector `m && m.$id`: the `$id` of a members-array element; a plain string has
none. -/
def idOf : MemberVal → Option String
  | .str _ => none
  | .objm m => m.mid

/-- A team entry: `$id`, `name` and its `members` array. -/
structure Team where
  tid : Option String
  tname : Option String
  tmembers : List MemberVal
deriving DecidableEq, Repr

/-- The normalized webhook `document` payload: every field any handler or
the classifier reads, each optional. -/
structure Payload where
  id : Option String := none
  organizationId : Option String := none
  orgId : Option String := none
  orgDollarId : Option String := none
  parentOrgId : Option String := none
  name : Option String := none
  slug : Option String := none
  description : Option String := none
  email : Option String := none
  role : Option String := none
  title : Option String := none
  userEmail : Option String := none
  status : Option String := none
  category : Option String := none
  priority : Option String := none
  dueDate : Option String := none
  assignee : Option String := none
  createdAtF : Option String := none
  dollarCreatedAt : Option String := none
  dollarUpdatedAt : Option String := none
  invites : Option (List String) := none
  members : Option (List MemberVal) := none
  teams : Option (List Team) := none
deriving DecidableEq, Repr

/-- The stored organization aggregate document. `members`/`teams` are
`none` exactly when the stored JSON lacks the array. -/
structure OrgDoc where
  docType : Option String
  oname : Option String
  oslug : Option String
  odescription : Option String
  createdAt : Option String
  omembers : Option (List MemberVal)
  oteams : Option (List Team)
deriving DecidableEq, Repr

/-- The stored task document (flat projection written by the task handler). -/
structure TaskDoc where
  docType : Option String
  title : Option String
  description : Option String
  category : Option String
  status : Option String
  priority : Option String
  dueDate : Option String
  userEmail : Option String
  createdAt : Option String
  updatedAt : Option String
  assignee : Option String
  invites : Option (List String)
deriving DecidableEq, Repr

/-- The organizations index: id → stored aggregate. -/
def OrgStore := String → Option OrgDoc

/-- The tasks index: id → stored task document. -/
def TaskStore := String → Option TaskDoc

/-- Write (full replace) into a store keyed by id. -/
def storePut {α : Type} (s : String → Option α) (i : String) (d : α) :
    String → Option α :=
  fun k => if k = i then some d else s k

/-- Delete by id (absent id is a no-op). -/
def storeDel {α : Type} (s : String → Option α) (i : String) :
    String → Option α :=
  fun k => if k = i then none else s k

/-- HTTP-level outcome of an indexing handler. -/
inductive IndexResp where
  | deleted (i : String)
  | upserted (i : String) (index : String)
  | merged (i : String)
  | error (status : Nat) (code : String)
deriving DecidableEq, Repr

/-- The empty aggregate shell used when no organization document exists yet. -/
def orgShell : OrgDoc :=
  { docType := some "organizations", oname := some "", oslug := some "",
    odescription := some "", createdAt := none,
    omembers := some [], oteams := some [] }

/-- The full-aggregate upsert body:
`{docType, name, slug, description, members: document.members || [],
teams: document.teams || [], createdAt: document.createdAt || document.$createdAt}`. -/
def fullOrgBody (p : Payload) : OrgDoc :=
  { docType := some "organizations", oname := p.name, oslug := p.slug,
    odescription := p.description,
    createdAt := jsOr p.createdAtF p.dollarCreatedAt,
    omembers := some (p.members.getD []),
    oteams := some (p.teams.getD []) }

/-- Guard `document.$id && (document.members || document.teams || document.name)`:
the guard selecting the full-aggregate upsert branch. -/
def fullAggTest (p : Payload) : Bool :=
  otruthy p.id && (p.members.isSome || p.teams.isSome || otruthy p.name)

/-- Guard `document.email || document.role`: the payload looks like a member. -/
def memberTest (p : Payload) : Bool :=
  otruthy p.email || otruthy p.role

/-- Guard `document.name && Array.isArray(document.members)`: the payload looks
like a team. -/
def teamTest (p : Payload) : Bool :=
  otruthy p.name && p.members.isSome

/-- Resolution chain `document.organizationId || document.orgId ||
(document.org && document.org.$id) || document.parentOrgId`. -/
def parentRef (p : Payload) : Option String :=
  jsOr (jsOr (jsOr p.organizationId p.orgId) p.orgDollarId) p.parentOrgId

/-- Resolution chain `document.$id || document.organizationId || document.orgId`: the id used
by the delete branch. -/
def deleteId (p : Payload) : Option String :=
  jsOr (jsOr p.id p.organizationId) p.orgId

/-- The member record built for a merge:
`{$id: document.$id || mem_<now>, name, email, role}`. -/
def memRec (p : Payload) (now : String) : OrgMember :=
  { mid := some (jsOrD p.id ("mem_" ++ now)), mname := p.name,
    email := p.email, role := p.role }

/-- The team record built for a merge:
`{$id: document.$id || team_<now>, name, members: document.members || []}`. -/
def teamRec (p : Payload) (now : String) : Team :=
  { tid := some (jsOrD p.id ("team_" ++ now)), tname := p.name,
    tmembers := p.members.getD [] }

/-- Member upsert `findIndex(m => m && m.$id === member.$id)` then replace-in-place
(shallow merge, which overwrites every member field) or push. -/
def upsertMember (ms : List MemberVal) (mem : OrgMember) : List MemberVal :=
  match ms.findIdx? (fun e => idOf e == mem.mid) with
  | some j => ms.set j (.objm mem)
  | none => ms ++ [.objm mem]

/-- Team upsert `findIndex(t => t && t.$id === team.$id)` then replace-in-place or push
on the teams array. -/
def upsertTeam (ts : List Team) (tm : Team) : List Team :=
  match ts.findIdx? (fun t => t.tid == tm.tid) with
  | some j => ts.set j tm
  | none => ts ++ [tm]

/-- The in-memory merge of a child payload into the fetched aggregate (or
the shell when none exists): conditionally merge a member, conditionally
merge a team, then re-tag `docType`. -/
def mergeStep (p : Payload) (now : String) (fetched : Option OrgDoc) : OrgDoc :=
  let org0 := fetched.getD orgShell
  let org1 :=
    if memberTest p then
      { org0 with omembers := some (upsertMember (org0.omembers.getD []) (memRec p now)) }
    else org0
  let org2 :=
    if teamTest p then
      { org1 with oteams := some (upsertTeam (org1.oteams.getD []) (teamRec p now)) }
    else org1
  { org2 with docType := some "organizations" }

/-- The `/api/index/organization` handler after payload normalization:
delete branch, full-aggregate upsert branch, parent-reference validation,
child merge. `now` stands for `Date.now()` used for fallback identifiers. -/
def orgIndexHandler (event : String) (doc : Option Payload) (now : String)
    (s : OrgStore) : IndexResp × OrgStore :=
  match doc with
  | none => (.error 400 "missing_document", s)
  | some p =>
    if containsDelete event && otruthy (deleteId p) then
      let i := (deleteId p).getD ""
      (.deleted i, storeDel s i)
    else if fullAggTest p then
      let i := p.id.getD ""
      (.upserted i "organizations", storePut s i (fullOrgBody p))
    else if ¬ otruthy (parentRef p) then
      (.error 400 "missing_parent_org_id", s)
    else
      let pid := (parentRef p).getD ""
      (.merged pid, storePut s pid (mergeStep p now (s pid)))

/-- The flat task projection body tagged `docType: 'tasks'`. -/
def taskBody (p : Payload) : TaskDoc :=
  { docType := some "tasks", title := p.title, description := p.description,
    category := p.category, status := p.status, priority := p.priority,
    dueDate := p.dueDate, userEmail := p.userEmail,
    createdAt := p.dollarCreatedAt, updatedAt := p.dollarUpdatedAt,
    assignee := p.assignee, invites := p.invites }

/-- The `/api/index/task` handler after payload normalization: missing-id
validation, delete branch, full-replace upsert keyed by `document.$id`. -/
def taskIndexHandler (event : String) (doc : Option Payload)
    (s : TaskStore) : IndexResp × TaskStore :=
  match doc with
  | none => (.error 400 "missing_document", s)
  | some p =>
    if ¬ otruthy p.id then (.error 400 "missing_document", s)
    else
      let i := p.id.getD ""
      if containsDelete event then (.deleted i, storeDel s i)
      else (.upserted i "tasks", storePut s i (taskBody p))

/-! ## Document-type classifier (four-index revision of `/api/index`) -/

/-- Heuristic rule 1: `doc.email || doc.role` → orgmembers. -/
def memberRule (doc : Payload) : Bool :=
  otruthy doc.email || otruthy doc.role

/-- Heuristic rule 2: `doc.slug`, or a non-empty `teams` array, or a
non-empty `members` array whose first element is an object → organizations. -/
def orgRule (doc : Payload) : Bool :=
  otruthy doc.slug ||
  (match doc.teams with
   | some ts => decide (ts.length ≠ 0)
   | none => false) ||
  (match doc.members with
   | some ms =>
       decide (ms.length ≠ 0) &&
       (match ms.head? with
        | some (.objm _) => true
        | _ => false)
   | none => false)

/-- Heuristic rule 3: `doc.name` and a non-empty `members` array of plain
strings → teams. -/
def teamRule (doc : Payload) : Bool :=
  otruthy doc.name &&
  (match doc.members with
   | some ms =>
       decide (ms.length ≠ 0) &&
       ms.all (fun e => match e with | .str _ => true | .objm _ => false)
   | none => false)

/-- Heuristic rule 4: any of `title`/`userEmail`/`description`/`status` → tasks. -/
def taskRule (doc : Payload) : Bool :=
  otruthy doc.title || otruthy doc.userEmail ||
  otruthy doc.description || otruthy doc.status

/-- Classifier `detectDocType`: explicit hint (case-insensitive substring tests), then
the structural heuristics in source order, then the `tasks` default. -/
def detectDocType (explicitHint : Option String) (doc : Payload) : String :=
  let heur : String :=
    if memberRule doc then "orgmembers"
    else if orgRule doc then "organizations"
    else if teamRule doc then "teams"
    else if taskRule doc then "tasks"
    else "tasks"
  match explicitHint with
  | some h =>
    let low := h.toLower
    if strContains low "task" then "tasks"
    else if strContains low "org" && strContains low "member" then "orgmembers"
    else if strContains low "org" || strContains low "organization" then "organizations"
    else if strContains low "team" then "teams"
    else heur
  | none => heur

/-! ## Concrete fixtures used by the witnesses -/

/-- A mapping summary reporting no keyword sub-field anywhere (the failure
fallback of `loadMappingSummary`). -/
def summaryAllFalse : MappingSummary := fun _ _ => false

/-- A mapping summary reporting a keyword sub-field for every checked pair. -/
def summaryAllTrue : MappingSummary := fun _ _ => true

/-- The empty organizations index. -/
def emptyOrgStore : OrgStore := fun _ => none

/-- The empty tasks index. -/
def emptyTaskStore : TaskStore := fun _ => none

/-- A stored aggregate with two members and one team, used by witnesses. -/
def orgW : OrgDoc :=
  { docType := some "organizations", oname := some "Acme",
    oslug := some "acme", odescription := some "demo org",
    createdAt := some "2024-01-01",
    omembers := some
      [.objm { mid := some "mA", mname := some "A", email := some "a@x.com",
               role := some "owner" },
       .objm { mid := some "mB", mname := some "B", email := some "b@x.com",
               role := some "member" }],
    oteams := some [{ tid := some "tT", tname := some "T", tmembers := [.str "mA"] }] }

/-- A store holding `orgW` under id `o1`. -/
def storeW : OrgStore := fun k => if k = "o1" then some orgW else none

/-- A member child payload pointing at parent `o1`. -/
def memberPayloadW : Payload :=
  { id := some "mC", organizationId := some "o1",
    email := some "c@x.com", role := some "member" }

/-- A payload that is simultaneously member-shaped and team-shaped. -/
def hybridPayloadW : Payload :=
  { organizationId := some "o1", email := some "x@y.z",
    name := some "TeamX", members := some [.str "mA"] }

/-- The aggregate invariant: every stored organization document has a
members collection, a teams collection, and the organizations `docType`. -/
def orgInvariant (s : OrgStore) : Prop :=
  ∀ (i : String) (d : OrgDoc), s i = some d →
    d.omembers.isSome = true ∧ d.oteams.isSome = true ∧
    d.docType = some "organizations"

/-- Replay of a request sequence against the organizations index. -/
def runOrg (reqs : List (String × Option Payload × String)) (s : OrgStore) : OrgStore :=
  reqs.foldl (fun st r => (orgIndexHandler r.1 r.2.1 r.2.2 st).2) s

/-- A full organization upsert payload used by witnesses. -/
def orgPayloadW : Payload := { id := some "o1", name := some "Acme" }

/-! ## Theorems -/

/-- C7: for every search request with a truthy `userEmail` and a query whose
trimmed text has length 0 or 1 (an absent query included), the handler
returns the empty result set and the store is never queried (the outcome is
`emptyResults`, not `executed`). -/
theorem search_short_query_short_circuit (query userEmail : Option String)
    (limit : Option Nat) (m : MappingSummary)
    (hu : otruthy userEmail = true)
    (hq : (jsTrim (query.getD "")).length < 2) :
    searchHandler query userEmail limit m = .emptyResults := by
  unfold searchHandler
  simp [hu, hq]

/-- Witness: a one-character query with a present user email short-circuits. -/
theorem search_short_query_short_circuit_witness :
    searchHandler (some "a") (some "a@x.com") none summaryAllFalse = .emptyResults :=
  search_short_query_short_circuit (some "a") (some "a@x.com") none summaryAllFalse
    (by decide) (by decide)

/-- C8: applying the same task-upsert payload twice in succession leaves the
same stored state as applying it once (the write is a full replace keyed by
`document.$id`), and the second application reports the same upsert. -/
theorem task_upsert_idempotent (event : String) (p : Payload) (s : TaskStore)
    (he : containsDelete event = false) (hid : otruthy p.id = true) :
    (taskIndexHandler event (some p) (taskIndexHandler event (some p) s).2).2
      = (taskIndexHandler event (some p) s).2 ∧
    (taskIndexHandler event (some p) (taskIndexHandler event (some p) s).2).1
      = (taskIndexHandler event (some p) s).1 := by
  unfold taskIndexHandler
  simp [hid, he]
  funext k
  unfold storePut
  by_cases hk : k = p.id.getD "" <;> simp [hk]

/-- Witness: indexing the same concrete task twice equals indexing it once. -/
theorem task_upsert_idempotent_witness :
    (taskIndexHandler "tasks.create"
        (some { id := some "t1", title := some "Design review",
                userEmail := some "a@x.com" })
        (taskIndexHandler "tasks.create"
          (some { id := some "t1", title := some "Design review",
                  userEmail := some "a@x.com" }) emptyTaskStore).2).2
      = (taskIndexHandler "tasks.create"
          (some { id := some "t1", title := some "Design review",
                  userEmail := some "a@x.com" }) emptyTaskStore).2 ∧
    (taskIndexHandler "tasks.create"
        (some { id := some "t1", title := some "Design review",
                userEmail := some "a@x.com" })
        (taskIndexHandler "tasks.create"
          (some { id := some "t1", title := some "Design review",
                  userEmail := some "a@x.com" }) emptyTaskStore).2).1
      = (taskIndexHandler "tasks.create"
          (some { id := some "t1", title := some "Design review",
                  userEmail := some "a@x.com" }) emptyTaskStore).1 :=
  task_upsert_idempotent "tasks.create" _ emptyTaskStore (by decide) (by decide)

/-- C5: an organization-endpoint payload that is not a full aggregate (falsy
organization-level `name`, absent `members` and `teams`) and that carries no
truthy parent reference (`organizationId`, `orgId`, `org.$id`, `parentOrgId`)
on a non-delete event yields a 400 `missing_parent_org_id` response and the
store is unchanged. -/
theorem org_missing_parent_is_400 (event : String) (p : Payload) (now : String)
    (s : OrgStore)
    (he : containsDelete event = false)
    (hn : otruthy p.name = false) (hm : p.members = none) (ht : p.teams = none)
    (h1 : otruthy p.organizationId = false) (h2 : otruthy p.orgId = false)
    (h3 : otruthy p.orgDollarId = false) (h4 : otruthy p.parentOrgId = false) :
    orgIndexHandler event (some p) now s = (.error 400 "missing_parent_org_id", s) := by
  unfold orgIndexHandler
  simp [fullAggTest, parentRef, jsOr, he, hn, hm, ht, h1, h2, h3, h4]

/-- Witness: a bare member-like payload with no parent reference is rejected
and writes nothing. -/
theorem org_missing_parent_is_400_witness :
    orgIndexHandler "memberships.create"
        (some { id := some "m1", email := some "a@x.com", role := some "admin" })
        "1700000000000" emptyOrgStore
      = (.error 400 "missing_parent_org_id", emptyOrgStore) :=
  org_missing_parent_is_400 "memberships.create" _ "1700000000000" emptyOrgStore
    (by decide) (by decide) (by decide) (by decide) (by decide) (by decide)
    (by decide) (by decide)

/-- C6: on an executed search, the generated tasks visibility clause adapts
to the mapping summary: no keyword sub-field reported for
(`tasks`, `userEmail`) gives an analyzed `match` clause on `userEmail`, a
reported keyword sub-field gives an exact `term` clause on
`userEmail.keyword`. -/
theorem search_visibility_adapts_to_mapping (q u : String) (limit : Option Nat)
    (m : MappingSummary) (hu : u ≠ "") (hq : 2 ≤ (jsTrim q).length) :
    searchHandler (some q) (some u) limit m
      = .executed (clampSize limit) (searchQueryBody q u m) ∧
    (m "tasks" "userEmail" = false →
      taskVisBranch m u
        = .boolQ [.atom (.term "_index" "tasks"), .atom (.matchQ "userEmail" u)] [] [] 0) ∧
    (m "tasks" "userEmail" = true →
      taskVisBranch m u
        = .boolQ [.atom (.term "_index" "tasks"), .atom (.term "userEmail.keyword" u)] [] [] 0) := by
  have hq' : q ≠ "" := by
    intro h
    subst h
    simp [jsTrim] at hq
  refine ⟨?_, ?_, ?_⟩
  · unfold searchHandler
    simp [otruthy, hu, hq', Nat.not_lt.mpr hq]
  · intro hfalse
    unfold taskVisBranch termOrMatch
    simp [hfalse]
  · intro htrue
    unfold taskVisBranch termOrMatch
    simp [htrue]

/-- Witness: with an all-false summary the executed query's tasks branch is
the fuzzy match; with an all-true summary it is the keyword term. -/
theorem search_visibility_adapts_to_mapping_witness :
    (searchHandler (some "desi") (some "a@x.com") none summaryAllFalse
        = .executed (clampSize none) (searchQueryBody "desi" "a@x.com" summaryAllFalse) ∧
      (summaryAllFalse "tasks" "userEmail" = false →
        taskVisBranch summaryAllFalse "a@x.com"
          = .boolQ [.atom (.term "_index" "tasks"),
                    .atom (.matchQ "userEmail" "a@x.com")] [] [] 0) ∧
      (summaryAllFalse "tasks" "userEmail" = true →
        taskVisBranch summaryAllFalse "a@x.com"
          = .boolQ [.atom (.term "_index" "tasks"),
                    .atom (.term "userEmail.keyword" "a@x.com")] [] [] 0)) ∧
    (searchHandler (some "desi") (some "a@x.com") none summaryAllTrue
        = .executed (clampSize none) (searchQueryBody "desi" "a@x.com" summaryAllTrue) ∧
      (summaryAllTrue "tasks" "userEmail" = false →
        taskVisBranch summaryAllTrue "a@x.com"
          = .boolQ [.atom (.term "_index" "tasks"),
                    .atom (.matchQ "userEmail" "a@x.com")] [] [] 0) ∧
      (summaryAllTrue "tasks" "userEmail" = true →
        taskVisBranch summaryAllTrue "a@x.com"
          = .boolQ [.atom (.term "_index" "tasks"),
                    .atom (.term "userEmail.keyword" "a@x.com")] [] [] 0)) :=
  ⟨search_visibility_adapts_to_mapping "desi" "a@x.com" none summaryAllFalse
      (by decide) (by decide),
   search_visibility_adapts_to_mapping "desi" "a@x.com" none summaryAllTrue
      (by decide) (by decide)⟩

/-- C1: for a search request with a non-empty `userEmail` and a trimmed
query of length at least 2, the handler sends the built body; the built
visibility filter is a `should` disjunction of exactly the two branches
(tasks-index document with the caller's `userEmail`, organizations-index
document with an embedded member email equal to the caller's) with
`minimum_should_match: 1`; and under the bool-query semantics a document
matches the built body exactly when it satisfies the text clause and at
least one visibility branch. -/
theorem search_query_text_and_visibility (q u : String) (limit : Option Nat)
    (m : MappingSummary) (prim : ESAtom → Bool)
    (hu : u ≠ "") (hq : 2 ≤ (jsTrim q).length) :
    searchHandler (some q) (some u) limit m
      = .executed (clampSize limit) (searchQueryBody q u m) ∧
    userFilters m u = .boolQ [] [taskVisBranch m u, orgVisBranch m u] [] 1 ∧
    evalQ prim (searchQueryBody q u m)
      = (prim (.multiMatch q "bool_prefix" fieldsToSearch "or") &&
          ((prim (.term "_index" "tasks") &&
              evalQ prim (termOrMatch m u "userEmail" "tasks" "userEmail")) ||
           (prim (.term "_index" "organizations") &&
              evalQ prim (termOrMatch m u "members.email" "organizations" "members.email")))) := by
  have hq' : q ≠ "" := by
    intro h
    subst h
    simp [jsTrim] at hq
  refine ⟨?_, rfl, ?_⟩
  · unfold searchHandler
    simp [otruthy, hu, hq', Nat.not_lt.mpr hq]
  · cases h1 : prim (.multiMatch q "bool_prefix" fieldsToSearch "or") <;>
    cases h2 : prim (.term "_index" "tasks") <;>
    cases h3 : prim (.term "_index" "organizations") <;>
    cases h4 : evalQ prim (termOrMatch m u "userEmail" "tasks" "userEmail") <;>
    cases h5 : evalQ prim (termOrMatch m u "members.email" "organizations" "members.email") <;>
    simp [searchQueryBody, userFilters, taskVisBranch, orgVisBranch,
          evalQ, evalAll, evalCount, h1, h2, h3, h4, h5]

/-- Witness: concrete query, caller, summary and a primitive evaluator that
satisfies every leaf clause. -/
theorem search_query_text_and_visibility_witness :
    searchHandler (some "desi") (some "a@x.com") none summaryAllFalse
      = .executed (clampSize none) (searchQueryBody "desi" "a@x.com" summaryAllFalse) ∧
    userFilters summaryAllFalse "a@x.com"
      = .boolQ [] [taskVisBranch summaryAllFalse "a@x.com",
                   orgVisBranch summaryAllFalse "a@x.com"] [] 1 ∧
    evalQ (fun _ => true) (searchQueryBody "desi" "a@x.com" summaryAllFalse)
      = ((fun (_ : ESAtom) => true) (.multiMatch "desi" "bool_prefix" fieldsToSearch "or") &&
          (((fun (_ : ESAtom) => true) (.term "_index" "tasks") &&
              evalQ (fun _ => true)
                (termOrMatch summaryAllFalse "a@x.com" "userEmail" "tasks" "userEmail")) ||
           ((fun (_ : ESAtom) => true) (.term "_index" "organizations") &&
              evalQ (fun _ => true)
                (termOrMatch summaryAllFalse "a@x.com" "members.email" "organizations"
                  "members.email")))) :=
  search_query_text_and_visibility "desi" "a@x.com" none summaryAllFalse
    (fun _ => true) (by decide) (by decide)

/-- C3: with no explicit type hint the classifier tries the structural
heuristics in the fixed order member, organization, team, task (default
task), and a payload with both an `email` and a `title` field classifies as
an organization member, not as a task. -/
theorem classifier_priority (doc : Payload) :
    detectDocType none doc
      = (if memberRule doc then "orgmembers"
         else if orgRule doc then "organizations"
         else if teamRule doc then "teams"
         else if taskRule doc then "tasks"
         else "tasks") ∧
    (otruthy doc.email = true → otruthy doc.title = true →
      detectDocType none doc = "orgmembers" ∧ detectDocType none doc ≠ "tasks") := by
  refine ⟨rfl, ?_⟩
  intro he _
  have hm : memberRule doc = true := by simp [memberRule, he]
  unfold detectDocType
  simp [hm]

/-- Witness: a payload carrying both `email` and `title` classifies as an
organization member. -/
theorem classifier_priority_witness :
    detectDocType none { email := some "a@x.com", title := some "Design review" }
        = "orgmembers" ∧
    detectDocType none { email := some "a@x.com", title := some "Design review" }
        ≠ "tasks" :=
  (classifier_priority { email := some "a@x.com", title := some "Design review" }).2
    (by decide) (by decide)

/-- Entries whose id fails the search predicate are untouched by the
find-and-replace-or-append pattern of the merge code. -/
theorem set_or_append_frame {α : Type} (p : α → Bool) (l : List α) (a : α)
    (k : Nat) (e : α) (hk : l[k]? = some e) (hne : p e = false) :
    (match l.findIdx? p with
     | some j => l.set j a
     | none => l ++ [a])[k]? = some e := by
  cases hf : l.findIdx? p with
  | none =>
    obtain ⟨hlt, -⟩ := List.getElem?_eq_some.mp hk
    simp only [List.getElem?_append, hlt, if_pos]
    exact hk
  | some j =>
    obtain ⟨hj, hfind⟩ := List.findIdx?_eq_some_iff_findIdx_eq.mp hf
    have hkj : j ≠ k := by
      intro h
      obtain ⟨hlt, hget⟩ := List.getElem?_eq_some.mp hk
      have hpj : p l[j] = true := by
        have hw : List.findIdx p l < l.length := by rw [hfind]; exact hj
        have := @List.findIdx_getElem _ p l hw
        simpa [hfind] using this
      subst h
      rw [hget] at hpj
      rw [hpj] at hne
      cases hne
    rw [List.getElem?_set_ne hkj]
    exact hk

/-- Frame for the member merge: members whose `$id` differs from the merged
member's id keep their position and value. -/
theorem upsertMember_frame (ms : List MemberVal) (mem : OrgMember) (k : Nat)
    (e : MemberVal) (hk : ms[k]? = some e) (hne : idOf e ≠ mem.mid) :
    (upsertMember ms mem)[k]? = some e := by
  unfold upsertMember
  exact set_or_append_frame _ ms (.objm mem) k e hk (by simpa using hne)

/-- Frame for the team merge: teams whose `$id` differs from the merged
team's id keep their position and value. -/
theorem upsertTeam_frame (ts : List Team) (tm : Team) (k : Nat)
    (t : Team) (hk : ts[k]? = some t) (hne : t.tid ≠ tm.tid) :
    (upsertTeam ts tm)[k]? = some t := by
  unfold upsertTeam
  exact set_or_append_frame _ ts tm k t hk (by simpa using hne)

/-- The merge path of the organization handler: common facts used by the
frame and double-merge claims. -/
theorem orgIndexHandler_merge_path (event : String) (p : Payload) (now : String)
    (s : OrgStore)
    (he : containsDelete event = false)
    (hfull : fullAggTest p = false)
    (hpar : otruthy (parentRef p) = true) :
    orgIndexHandler event (some p) now s
      = (.merged ((parentRef p).getD ""),
         storePut s ((parentRef p).getD "") (mergeStep p now (s ((parentRef p).getD "")))) := by
  unfold orgIndexHandler
  simp [he, hfull, hpar]

/-- C2: merging a member payload (resp. a team payload) into a fetched
organization aggregate changes only the members (resp. teams) entry whose
identifier matches the merged record: the organization-level `name`, `slug`,
`description` and `createdAt` are unchanged, the other collection is
unchanged, the matching entry is replaced in place or appended, and every
entry with a different identifier keeps its position and value. -/
theorem org_child_merge_frame (event : String) (p : Payload) (now : String)
    (s : OrgStore) (pid : String) (org : OrgDoc)
    (he : containsDelete event = false)
    (hfull : fullAggTest p = false)
    (hpar : parentRef p = some pid) (hpid : pid ≠ "")
    (hfetch : s pid = some org) :
    orgIndexHandler event (some p) now s
      = (.merged pid, storePut s pid (mergeStep p now (s pid))) ∧
    (mergeStep p now (s pid)).oname = org.oname ∧
    (mergeStep p now (s pid)).oslug = org.oslug ∧
    (mergeStep p now (s pid)).odescription = org.odescription ∧
    (mergeStep p now (s pid)).createdAt = org.createdAt ∧
    ((memberTest p = true ∧ teamTest p = false) →
      (mergeStep p now (s pid)).oteams = org.oteams ∧
      (mergeStep p now (s pid)).omembers
        = some (upsertMember (org.omembers.getD []) (memRec p now)) ∧
      (∀ (k : Nat) (e : MemberVal), (org.omembers.getD [])[k]? = some e →
        idOf e ≠ (memRec p now).mid →
        (upsertMember (org.omembers.getD []) (memRec p now))[k]? = some e)) ∧
    ((teamTest p = true ∧ memberTest p = false) →
      (mergeStep p now (s pid)).omembers = org.omembers ∧
      (mergeStep p now (s pid)).oteams
        = some (upsertTeam (org.oteams.getD []) (teamRec p now)) ∧
      (∀ (k : Nat) (t : Team), (org.oteams.getD [])[k]? = some t →
        t.tid ≠ (teamRec p now).tid →
        (upsertTeam (org.oteams.getD []) (teamRec p now))[k]? = some t)) := by
  have hpt : otruthy (parentRef p) = true := by simp [hpar, otruthy, hpid]
  have hget : (parentRef p).getD "" = pid := by simp [hpar]
  refine ⟨by simpa [hget] using orgIndexHandler_merge_path event p now s he hfull hpt,
          ?_, ?_, ?_, ?_, ?_, ?_⟩ <;>
    simp only [hfetch, mergeStep, Option.getD_some]
  · split <;> split <;> rfl
  · split <;> split <;> rfl
  · split <;> split <;> rfl
  · split <;> split <;> rfl
  · rintro ⟨hm, ht⟩
    refine ⟨by simp [hm, ht], by simp [hm, ht], ?_⟩
    intro k e hk hne
    exact upsertMember_frame _ _ _ _ hk hne
  · rintro ⟨ht, hm⟩
    refine ⟨by simp [hm, ht], by simp [hm, ht], ?_⟩
    intro k t hk hne
    exact upsertTeam_frame _ _ _ _ hk hne

/-- Witness: merging `memberPayloadW` into `o1` reports a merge, writes the
merged aggregate, leaves the teams collection unchanged and upserts exactly
the member record. -/
theorem org_child_merge_frame_witness :
    orgIndexHandler "memberships.update" (some memberPayloadW) "1700" storeW
      = (.merged "o1", storePut storeW "o1"
          (mergeStep memberPayloadW "1700" (storeW "o1"))) ∧
    (mergeStep memberPayloadW "1700" (storeW "o1")).oteams = orgW.oteams ∧
    (mergeStep memberPayloadW "1700" (storeW "o1")).omembers
      = some (upsertMember (orgW.omembers.getD []) (memRec memberPayloadW "1700")) :=
  have h := org_child_merge_frame "memberships.update" memberPayloadW "1700" storeW
    "o1" orgW (by decide) (by decide) (by decide) (by decide) (by decide)
  have hcase := h.2.2.2.2.2.1 ⟨by decide, by decide⟩
  ⟨h.1, hcase.1, hcase.2.1⟩

/-- C10: the member test and the team test of the child merge are evaluated
independently: a payload satisfying both (an `email` plus a `name` and a
`members` array) is merged into the members collection and into the teams
collection of the parent aggregate in one operation. -/
theorem org_merge_member_and_team (event : String) (p : Payload) (now : String)
    (s : OrgStore) (pid : String)
    (he : containsDelete event = false)
    (hfull : fullAggTest p = false)
    (hpar : parentRef p = some pid) (hpid : pid ≠ "")
    (hm : memberTest p = true) (ht : teamTest p = true) :
    orgIndexHandler event (some p) now s
      = (.merged pid, storePut s pid (mergeStep p now (s pid))) ∧
    (mergeStep p now (s pid)).omembers
      = some (upsertMember (((s pid).getD orgShell).omembers.getD []) (memRec p now)) ∧
    (mergeStep p now (s pid)).oteams
      = some (upsertTeam (((s pid).getD orgShell).oteams.getD []) (teamRec p now)) := by
  have hpt : otruthy (parentRef p) = true := by simp [hpar, otruthy, hpid]
  have hget : (parentRef p).getD "" = pid := by simp [hpar]
  refine ⟨by simpa [hget] using orgIndexHandler_merge_path event p now s he hfull hpt,
          ?_, ?_⟩ <;>
    simp [mergeStep, hm, ht]

/-- Witness: the hybrid payload updates both collections of `o1` at once. -/
theorem org_merge_member_and_team_witness :
    orgIndexHandler "memberships.update" (some hybridPayloadW) "1700" storeW
      = (.merged "o1", storePut storeW "o1"
          (mergeStep hybridPayloadW "1700" (storeW "o1"))) ∧
    (mergeStep hybridPayloadW "1700" (storeW "o1")).omembers
      = some (upsertMember (((storeW "o1").getD orgShell).omembers.getD [])
          (memRec hybridPayloadW "1700")) ∧
    (mergeStep hybridPayloadW "1700" (storeW "o1")).oteams
      = some (upsertTeam (((storeW "o1").getD orgShell).oteams.getD [])
          (teamRec hybridPayloadW "1700")) :=
  org_merge_member_and_team "memberships.update" hybridPayloadW "1700" storeW "o1"
    (by decide) (by decide) (by decide) (by decide) (by decide) (by decide)

/-- Disjunction form of truthiness through the JS or-chain. -/
theorem otruthy_jsOr (a b : Option String) :
    otruthy (jsOr a b) = (otruthy a || otruthy b) := by
  unfold jsOr
  split <;> simp [*]

/-- C9: on the organization endpoint, a delete event whose payload resolves
no identifier (and no parent reference) is not a deletion: the handler falls
through and answers 400 `missing_parent_org_id` with the store unchanged;
and in general the delete branch answers `deleted` exactly when the event
contains `delete` and an identifier is resolvable. -/
theorem org_delete_requires_id (event : String) (p : Payload) (now : String)
    (s : OrgStore)
    (he : containsDelete event = true)
    (h0 : otruthy p.id = false)
    (h1 : otruthy p.organizationId = false) (h2 : otruthy p.orgId = false)
    (h3 : otruthy p.orgDollarId = false) (h4 : otruthy p.parentOrgId = false) :
    orgIndexHandler event (some p) now s = (.error 400 "missing_parent_org_id", s) ∧
    (∀ (e : String) (q : Payload) (now2 : String) (s2 : OrgStore) (i : String),
      (orgIndexHandler e (some q) now2 s2).1 = .deleted i →
      containsDelete e = true ∧ otruthy (deleteId q) = true) ∧
    (∀ (e : String) (q : Payload) (now2 : String) (s2 : OrgStore),
      containsDelete e = true → otruthy (deleteId q) = true →
      (orgIndexHandler e (some q) now2 s2).1 = .deleted ((deleteId q).getD "")) := by
  refine ⟨?_, ?_, ?_⟩
  · unfold orgIndexHandler
    simp [deleteId, parentRef, fullAggTest, otruthy_jsOr, he, h0, h1, h2, h3, h4]
  · intro e q now2 s2 i h
    simp only [orgIndexHandler] at h
    by_cases hc : (containsDelete e && otruthy (deleteId q)) = true
    · simpa [Bool.and_eq_true] using hc
    · rw [if_neg hc] at h
      split at h
      · simp at h
      · split at h <;> simp at h
  · intro e q now2 s2 he' hq'
    unfold orgIndexHandler
    simp [he', hq']

/-- Witness: a delete event with an identifier-free payload is answered with
the validation error, while a delete event with an id is answered `deleted`. -/
theorem org_delete_requires_id_witness :
    orgIndexHandler "organizations.delete" (some {}) "1700" emptyOrgStore
      = (.error 400 "missing_parent_org_id", emptyOrgStore) ∧
    (∀ (e : String) (q : Payload) (now2 : String) (s2 : OrgStore) (i : String),
      (orgIndexHandler e (some q) now2 s2).1 = .deleted i →
      containsDelete e = true ∧ otruthy (deleteId q) = true) ∧
    (∀ (e : String) (q : Payload) (now2 : String) (s2 : OrgStore),
      containsDelete e = true → otruthy (deleteId q) = true →
      (orgIndexHandler e (some q) now2 s2).1 = .deleted ((deleteId q).getD "")) :=
  org_delete_requires_id "organizations.delete" {} "1700" emptyOrgStore
    (by decide) (by decide) (by decide) (by decide) (by decide) (by decide)

/-- The merge result always has both collections and the discriminator,
whenever the fetched document (if any) already has both collections. -/
theorem mergeStep_preserves (p : Payload) (now : String) (fetched : Option OrgDoc)
    (hf : ∀ o, fetched = some o → o.omembers.isSome = true ∧ o.oteams.isSome = true) :
    (mergeStep p now fetched).omembers.isSome = true ∧
    (mergeStep p now fetched).oteams.isSome = true ∧
    (mergeStep p now fetched).docType = some "organizations" := by
  cases fetched with
  | none =>
    unfold mergeStep
    split <;> split <;> simp [orgShell]
  | some o =>
    obtain ⟨hm, ht⟩ := hf o rfl
    unfold mergeStep
    split <;> split <;> simp [hm, ht]

/-- One organization-endpoint request preserves the aggregate invariant. -/
theorem orgInvariant_step (e : String) (doc : Option Payload) (now : String)
    (s : OrgStore) (h : orgInvariant s) :
    orgInvariant (orgIndexHandler e doc now s).2 := by
  cases doc with
  | none => simpa [orgIndexHandler] using h
  | some p =>
    simp only [orgIndexHandler]
    split
    · intro i d hd
      simp only [storeDel] at hd
      by_cases hi : i = (deleteId p).getD ""
      · simp [hi] at hd
      · rw [if_neg hi] at hd
        exact h i d hd
    · split
      · intro i d hd
        simp only [storePut] at hd
        by_cases hi : i = p.id.getD ""
        · rw [if_pos hi] at hd
          cases hd
          simp [fullOrgBody]
        · rw [if_neg hi] at hd
          exact h i d hd
      · split
        · exact h
        · intro i d hd
          simp only [storePut] at hd
          by_cases hi : i = (parentRef p).getD ""
          · rw [if_pos hi] at hd
            cases hd
            exact mergeStep_preserves p now _
              (fun o ho => ⟨(h _ o ho).1, (h _ o ho).2.1⟩)
          · rw [if_neg hi] at hd
            exact h i d hd

/-- Replaying preserves the invariant. -/
theorem runOrg_invariant (reqs : List (String × Option Payload × String)) :
    ∀ (s : OrgStore), orgInvariant s → orgInvariant (runOrg reqs s) := by
  induction reqs with
  | nil => intro s h; exact h
  | cons r rs ih =>
    intro s h
    exact ih _ (orgInvariant_step r.1 r.2.1 r.2.2 s h)

/-- C4: every organization aggregate reachable from the empty index by any
sequence of organization-endpoint requests (full-aggregate upserts, child
merges, deletes, validation failures) has a members collection and a teams
collection — possibly empty, never absent — and carries
`docType: 'organizations'`. -/
theorem org_aggregate_always_has_collections
    (reqs : List (String × Option Payload × String)) (i : String) (d : OrgDoc)
    (hd : runOrg reqs emptyOrgStore i = some d) :
    d.omembers.isSome = true ∧ d.oteams.isSome = true ∧
    d.docType = some "organizations" := by
  have hempty : orgInvariant emptyOrgStore := by
    intro j e hj
    simp [emptyOrgStore] at hj
  exact runOrg_invariant reqs emptyOrgStore hempty i d hd

/-- Witness: after one full upsert followed by one child merge, the stored
aggregate still has both collections and the discriminator. -/
theorem org_aggregate_always_has_collections_witness :
    (mergeStep memberPayloadW "1700"
        (some (fullOrgBody orgPayloadW))).omembers.isSome = true ∧
    (mergeStep memberPayloadW "1700"
        (some (fullOrgBody orgPayloadW))).oteams.isSome = true ∧
    (mergeStep memberPayloadW "1700"
        (some (fullOrgBody orgPayloadW))).docType = some "organizations" :=
  org_aggregate_always_has_collections
    [("organizations.create", some orgPayloadW, "t0"),
     ("memberships.create", some memberPayloadW, "1700")]
    "o1" (mergeStep memberPayloadW "1700" (some (fullOrgBody orgPayloadW)))
    (by decide)

end Flashtask
